import Mathlib

/-!
Shallow embedding of the VCwebChat backend's connection/room registry and
message-routing core (src/controllers/chatController.ts, src/server.ts,
src/services/meetingValidationService.ts, src/dao/messageDAO.ts,
src/services/chatService.ts).

The server keeps no room table: a "room" is the set of WebSocket clients in
`wss.clients` whose `roomId` attribute equals the room's id.  We model a
client as a record carrying the controller-attached metadata (`userId`,
`roomId`) plus the transport `readyState` (`1` = OPEN), and the whole server
state as the list of clients.  A handler invocation is a pure function from
the client list (plus the message store and the environment's answers for
the remote calls) to the new client list, the new store, the list of frames
sent (receiver id paired with the frame) and the list of participant-count
reports pushed to Backend 1 (`updateParticipantCount`).  `Date.now()` and
`uuidv4()` are passed in as parameters `now` and `freshId`.
-/

namespace VCwebChat

/-- One WebSocket client as seen by the server: an entry of `wss.clients`.
`cid` stands for the JavaScript object identity of the `ws` object;
`userId` and `roomId` are the optional metadata fields the controller
attaches; `readyState` is the transport state (`1` = OPEN). -/
structure Client where
  cid : Nat
  userId : Option String := none
  roomId : Option String := none
  readyState : Nat := 1
deriving Repr, DecidableEq

/-- A persisted chat record (`IMessage` as constructed in
`handleChatMessage`, chatController.ts lines 293-301). -/
structure Message where
  id : String
  roomId : String
  senderId : String
  senderName : Option String := none
  type : String := "chat"
  content : String := ""
  timestamp : Nat := 0
deriving Repr, DecidableEq

/-- The meeting object inside Backend 1's reply
(meetingValidationService.ts lines 21-28). -/
structure Meeting where
  meetingId : String := ""
  hostId : String := ""
  participantCount : Nat := 0
  maxParticipants : Nat
  isActive : Bool
  createdAt : String := ""
deriving Repr, DecidableEq

/-- The body returned by `getMeeting` when the HTTP round trip completed
(ok or not): a `success` flag and an optional `meeting` object.  A thrown
fetch/parse error is caught inside `getMeeting` and surfaces as `null`,
which we model as `none : Option MeetingResp` at the call site. -/
structure MeetingResp where
  success : Bool
  meeting : Option Meeting := none
deriving Repr, DecidableEq

/-- An inbound envelope's `payload` object: the union of the optional
fields the handlers read (`payload` is untyped `any` in the source).
`extra` stands for the remaining opaque fields of a signaling payload,
which the relay spreads verbatim. -/
structure Payload where
  roomId : Option String := none
  userId : Option String := none
  text : Option String := none
  senderId : Option String := none
  senderName : Option String := none
  extra : List (String × String) := []
deriving Repr, DecidableEq

/-- A parsed inbound envelope (`IWebSocketEnvelope`): an action tag and a
payload.  The action is kept as a raw string because the dispatch in
`handleMessage` is a `switch` over strings with a `default` branch. -/
structure Envelope where
  action : String
  payload : Payload
deriving Repr, DecidableEq

/-- An outbound frame, one constructor per distinct `ws.send` shape in the
controller. -/
inductive Frame where
  /-- `{action:"error", payload:<bare string>}` (invalid-json,
  unknown-action, no-room). -/
  | errorStr (payload : String)
  /-- `{action:"error", payload:{message, code}}` (ROOMID_REQUIRED). -/
  | errorCode (message code : String)
  /-- `{action:"join-error", payload:{message, code}}`. -/
  | joinError (message code : String)
  /-- `{action:"join-error", payload:{message, code, current, max}}`
  (MEETING_FULL). -/
  | joinErrorFull (message code : String) (current maxP : Nat)
  /-- `{action:"joined", payload:{roomId, participantCount, maxParticipants}}`. -/
  | joined (roomId : String) (participantCount maxParticipants : Nat)
  /-- `{action:"user-joined", payload:{userId, socketId, participantCount}}`. -/
  | userJoined (userId : String) (socketId : Option String) (participantCount : Nat)
  /-- `{action:"recent-messages", payload:<message list>}`. -/
  | recentMessages (msgs : List Message)
  /-- `{action:"user-left", payload:{userId, socketId, participantCount}}`.
  The count is sent as computed (`getRoomParticipantCount(roomId) - 1` in
  `handleLeave`, no flooring), hence an `Int`. -/
  | userLeft (userId : String) (socketId : Option String) (participantCount : Int)
  /-- `{action:"left"}`. -/
  | leftAck
  /-- `{action:"chat-message", payload:<the Message>}`. -/
  | chatMessage (m : Message)
  /-- `{action:<signal action>, payload:{...original payload, from}}`: the
  original payload spread verbatim with a `from` field set to the sender's
  `userId`. -/
  | signal (action : String) (payload : Payload) (fromField : Option String)
deriving Repr, DecidableEq

/-- The effect of one handler invocation: the new client list, the new
message store, the frames sent (receiver `cid` paired with the frame, in
send order), and the participant-count reports made to Backend 1
(`updateParticipantCount(roomId, count)`), as `Int` because `handleLeave`
computes the count with JavaScript number arithmetic. -/
structure HandlerResult where
  clients : List Client
  store : List Message
  sends : List (Nat × Frame)
  reports : List (String × Int)
deriving Repr, DecidableEq

/-- JavaScript truthiness of an optional string (`undefined` and `""` are
falsy): the guards `if (!roomId)` and `if (userId)` in the controller. -/
def strTruthy : Option String → Bool
  | none => false
  | some s => s != ""

/-- `ws.userId || "anonymous"`: `||` falls through on falsy values, so an
absent or empty identity becomes `"anonymous"`. -/
def strOrAnonymous : Option String → String
  | none => "anonymous"
  | some s => if s = "" then "anonymous" else s

/-- Look a client up by object identity in the client list. -/
def findClient : List Client → Nat → Option Client
  | [], _ => none
  | c :: rest, cid => if c.cid == cid then some c else findClient rest cid

/-- Mutate the client object with identity `cid` in place (a JavaScript
field assignment on the `ws` object, seen through `wss.clients`). -/
def updateClient : List Client → Nat → (Client → Client) → List Client
  | [], _, _ => []
  | c :: rest, cid, f =>
    (if c.cid == cid then f c else c) :: updateClient rest cid f

/-- `getRoomParticipantCount` (chatController.ts lines 355-367): the number
of clients in `wss.clients` with `readyState === 1` and the given
`roomId`. -/
def getRoomParticipantCount (clients : List Client) (roomId : String) : Nat :=
  (clients.filter (fun c => c.readyState == 1 && c.roomId == some roomId)).length

/-- The recipient set of `broadcastToRoom` (chatController.ts lines
406-419): every client with `readyState === 1` and the given `roomId`,
minus the optional excluded sender (`client !== exceptWs`, an object
identity test). -/
def roomRecipients (clients : List Client) (roomId : String)
    (exceptCid : Option Nat) : List Client :=
  clients.filter
    (fun c => c.readyState == 1 && c.roomId == some roomId
      && some c.cid != exceptCid)

/-- `broadcastToRoom`: send `frame` to every recipient. -/
def broadcastToRoom (clients : List Client) (roomId : String) (frame : Frame)
    (exceptCid : Option Nat) : List (Nat × Frame) :=
  (roomRecipients clients roomId exceptCid).map (fun c => (c.cid, frame))

/-- `MessageDAO.getLast` (messageDAO.ts lines 47-50): the room's messages
in insertion order, last `limit` of them (`slice(-limit)`). -/
def getLast (store : List Message) (roomId : String) (limit : Nat) :
    List Message :=
  let room := store.filter (fun m => m.roomId == roomId)
  room.drop (room.length - limit)

/-- `ChatService.persistMessage` followed by `MessageDAO.save`: the service
backfills a falsy (`0`) timestamp with the current clock, then the DAO
appends the message to the store.  Both clock reads happen in the same
handler turn, so they are the same `now`. -/
def persistMessage (store : List Message) (m : Message) (now : Nat) :
    List Message :=
  let m' := if m.timestamp = 0 then { m with timestamp := now } else m
  store ++ [m']

/-- The mutation `handleJoin` performs on the joining socket
(chatController.ts lines 168-169): `ws.roomId = roomId` and, when the
payload's `userId` is truthy, `ws.userId = userId`. -/
def joinUpdate (payload : Payload) (rid : String) (c : Client) : Client :=
  { c with roomId := some rid,
           userId := if strTruthy payload.userId then payload.userId else c.userId }

/-- `handleJoin` (chatController.ts lines 89-225).  `resp` is the settled
value of `await meetingService.getMeeting(roomId)`: `none` when the remote
call threw (caught inside `getMeeting`, which then returns `null`),
otherwise the parsed body. -/
def handleJoin (clients : List Client) (store : List Message) (cid : Nat)
    (payload : Payload) (resp : Option MeetingResp) : HandlerResult :=
  match findClient clients cid with
  | none => ⟨clients, store, [], []⟩
  | some ws =>
    if strTruthy payload.roomId then
      let rid := payload.roomId.getD ""
      match resp with
      | none =>
        ⟨clients, store,
          [(cid, Frame.joinError "Reunión no encontrada" "MEETING_NOT_FOUND")], []⟩
      | some r =>
        if r.success then
          match r.meeting with
          | none =>
            ⟨clients, store,
              [(cid, Frame.joinError "La reunión ya no está activa"
                  "MEETING_INACTIVE")], []⟩
          | some m =>
            if m.isActive then
              let current := getRoomParticipantCount clients rid
              let maxP := m.maxParticipants
              if current ≥ maxP then
                ⟨clients, store,
                  [(cid, Frame.joinErrorFull
                      ("Reunión llena (" ++ toString maxP ++ "/" ++ toString maxP
                        ++ " participantes)")
                      "MEETING_FULL" current maxP)], []⟩
              else
                let ws' := joinUpdate payload rid ws
                let clients' := updateClient clients cid (joinUpdate payload rid)
                let sends :=
                  broadcastToRoom clients' rid
                    (Frame.userJoined (strOrAnonymous ws'.userId) ws'.userId
                      (current + 1))
                    (some cid)
                  ++ [(cid, Frame.joined rid (current + 1) maxP),
                      (cid, Frame.recentMessages (getLast store rid 50))]
                let newCount := getRoomParticipantCount clients' rid
                ⟨clients', store, sends, [(rid, (newCount : Int))]⟩
            else
              ⟨clients, store,
                [(cid, Frame.joinError "La reunión ya no está activa"
                    "MEETING_INACTIVE")], []⟩
        else
          ⟨clients, store,
            [(cid, Frame.joinError "Reunión no encontrada" "MEETING_NOT_FOUND")],
            []⟩
    else
      ⟨clients, store,
        [(cid, Frame.errorCode "roomId-required" "ROOMID_REQUIRED")], []⟩

/-- `handleLeave` (chatController.ts lines 232-266): when the socket's
`roomId` is truthy, broadcast `user-left` with `count - 1` to the others,
report `max(0, count - 1)` to Backend 1; in every case delete `ws.roomId`
and acknowledge with `left`. -/
def handleLeave (clients : List Client) (store : List Message) (cid : Nat) :
    HandlerResult :=
  match findClient clients cid with
  | none => ⟨clients, store, [], []⟩
  | some ws =>
    let base : List (Nat × Frame) × List (String × Int) :=
      if strTruthy ws.roomId then
        let rid := ws.roomId.getD ""
        let cnt : Int := (getRoomParticipantCount clients rid : Int)
        (broadcastToRoom clients rid
            (Frame.userLeft (strOrAnonymous ws.userId) ws.userId (cnt - 1))
            (some cid),
          [(rid, max 0 (cnt - 1))])
      else ([], [])
    let clients' := updateClient clients cid (fun c => { c with roomId := none })
    ⟨clients', store, base.1 ++ [(cid, Frame.leftAck)], base.2⟩

/-- The `Message` object built by `handleChatMessage` (chatController.ts
lines 293-301): `senderId` is `ws.userId ?? payload.senderId ?? "anonymous"`
(nullish coalescing, so an empty-string identity is kept), `content` is
`String(payload.text ?? "")`. -/
def mkChatMessage (ws : Client) (payload : Payload) (rid : String)
    (freshId : String) (now : Nat) : Message :=
  { id := freshId
    roomId := rid
    senderId := (ws.userId <|> payload.senderId).getD "anonymous"
    senderName := payload.senderName
    type := "chat"
    content := payload.text.getD ""
    timestamp := now }

/-- `handleChatMessage` (chatController.ts lines 274-309): resolve the room
as `payload.roomId ?? ws.roomId`, reject falsy with `no-room`, otherwise
persist the built message and broadcast it to the whole room with no
exclusion. -/
def handleChatMessage (clients : List Client) (store : List Message)
    (cid : Nat) (payload : Payload) (freshId : String) (now : Nat) :
    HandlerResult :=
  match findClient clients cid with
  | none => ⟨clients, store, [], []⟩
  | some ws =>
    let ridOpt := payload.roomId <|> ws.roomId
    if strTruthy ridOpt then
      let rid := ridOpt.getD ""
      let m := mkChatMessage ws payload rid freshId now
      ⟨clients, persistMessage store m now,
        broadcastToRoom clients rid (Frame.chatMessage m) none, []⟩
    else
      ⟨clients, store, [(cid, Frame.errorStr "no-room")], []⟩

/-- `handleSignaling` (chatController.ts lines 317-347): resolve the room
as `payload.roomId ?? ws.roomId`, reject falsy with `no-room`, otherwise
relay the envelope's payload spread verbatim plus `from: ws.userId` to the
room, excluding the sender. -/
def handleSignaling (clients : List Client) (store : List Message)
    (cid : Nat) (action : String) (payload : Payload) : HandlerResult :=
  match findClient clients cid with
  | none => ⟨clients, store, [], []⟩
  | some ws =>
    let ridOpt := payload.roomId <|> ws.roomId
    if strTruthy ridOpt then
      let rid := ridOpt.getD ""
      ⟨clients, store,
        broadcastToRoom clients rid (Frame.signal action payload ws.userId)
          (some cid), []⟩
    else
      ⟨clients, store, [(cid, Frame.errorStr "no-room")], []⟩

/-- `handleMessage` (chatController.ts lines 36-81): `inbound` is the
outcome of `JSON.parse(raw)` — `none` when parsing threw (answered with
`invalid-json`), otherwise the envelope, dispatched by its `action` tag
with a `default` branch answering `unknown-action`. -/
def handleMessage (clients : List Client) (store : List Message) (cid : Nat)
    (inbound : Option Envelope) (resp : Option MeetingResp)
    (freshId : String) (now : Nat) : HandlerResult :=
  match inbound with
  | none => ⟨clients, store, [(cid, Frame.errorStr "invalid-json")], []⟩
  | some env =>
    if env.action = "join" then
      handleJoin clients store cid env.payload resp
    else if env.action = "leave" then
      handleLeave clients store cid
    else if env.action = "chat-message" then
      handleChatMessage clients store cid env.payload freshId now
    else if env.action = "signal-offer" ∨ env.action = "signal-answer"
        ∨ env.action = "signal-candidate" then
      handleSignaling clients store cid env.action env.payload
    else
      ⟨clients, store, [(cid, Frame.errorStr "unknown-action")], []⟩

/-- `handleDisconnect` (chatController.ts lines 374-396): when the socket's
`roomId` is truthy, broadcast `user-left` carrying the current live count
(no exclusion; the disconnected socket is no longer open so it is not a
recipient) and report that count to Backend 1.  It never clears
`ws.roomId`. -/
def handleDisconnect (clients : List Client) (store : List Message)
    (cid : Nat) : HandlerResult :=
  match findClient clients cid with
  | none => ⟨clients, store, [], []⟩
  | some ws =>
    if strTruthy ws.roomId then
      let rid := ws.roomId.getD ""
      let cnt := getRoomParticipantCount clients rid
      ⟨clients, store,
        broadcastToRoom clients rid
          (Frame.userLeft (strOrAnonymous ws.userId) ws.userId (cnt : Int)) none,
        [(rid, (cnt : Int))]⟩
    else ⟨clients, store, [], []⟩

/-- The `close` listener installed by `start` (server.ts lines 59-62): its
body only logs the disconnect.  No code path in the repository invokes
`ChatController.handleDisconnect`, so a transport-level disconnection has
no effect beyond the log line. -/
def onClose (clients : List Client) (store : List Message) : HandlerResult :=
  ⟨clients, store, [], []⟩

/-- Whether the handler result contains a `joined` confirmation addressed
to `cid` — the mark of a successful join. -/
def joinedFrameTo (r : HandlerResult) (cid : Nat) : Bool :=
  r.sends.any (fun p => p.1 == cid &&
    (match p.2 with
     | Frame.joined _ _ _ => true
     | _ => false))

/-- The machine-readable `code` field of an outbound frame, when the frame
carries one. -/
def frameCode : Frame → Option String
  | Frame.errorCode _ code => some code
  | Frame.joinError _ code => some code
  | Frame.joinErrorFull _ code _ _ => some code
  | _ => none

/-! ### Basic lemmas about the registry helpers -/

lemma count_cons (c : Client) (rest : List Client) (rid : String) :
    getRoomParticipantCount (c :: rest) rid =
      (if c.readyState == 1 && c.roomId == some rid then 1 else 0) +
        getRoomParticipantCount rest rid := by
  simp only [getRoomParticipantCount, List.filter_cons]
  split <;> simp [Nat.add_comm]

lemma updateClient_id_of_not_mem (clients : List Client) (cid : Nat)
    (f : Client → Client) (h : cid ∉ clients.map Client.cid) :
    updateClient clients cid f = clients := by
  induction clients with
  | nil => rfl
  | cons c rest ih =>
    simp only [List.map_cons, List.mem_cons, not_or] at h
    have hne : (c.cid == cid) = false := by
      simp only [beq_eq_false_iff_ne, ne_eq]
      exact fun e => h.1 e.symm
    simp only [updateClient, hne, Bool.false_eq_true, if_false, ih h.2]

lemma updateClient_cid_map (clients : List Client) (cid : Nat)
    (f : Client → Client) (hf : ∀ c, (f c).cid = c.cid) :
    (updateClient clients cid f).map Client.cid = clients.map Client.cid := by
  induction clients with
  | nil => rfl
  | cons c rest ih =>
    simp only [updateClient, List.map_cons, ih]
    by_cases h : c.cid = cid <;> simp [h, hf]

lemma findClient_updateClient (clients : List Client) (cid : Nat)
    (f : Client → Client) (hf : ∀ c, (f c).cid = c.cid) :
    findClient (updateClient clients cid f) cid =
      (findClient clients cid).map f := by
  induction clients with
  | nil => rfl
  | cons c rest ih =>
    by_cases h : c.cid = cid
    · simp [findClient, updateClient, h, hf]
    · simp [findClient, updateClient, h, hf, ih]

lemma updateClient_eq_self (clients : List Client) (cid : Nat)
    (f : Client → Client) (ws : Client)
    (hnd : (clients.map Client.cid).Nodup)
    (hfind : findClient clients cid = some ws) (hfix : f ws = ws) :
    updateClient clients cid f = clients := by
  induction clients with
  | nil => simp [findClient] at hfind
  | cons c rest ih =>
    simp only [List.map_cons, List.nodup_cons] at hnd
    by_cases h : c.cid = cid
    · have hwc : ws = c := by
        simp only [findClient, h, beq_self_eq_true, if_true,
          Option.some_inj] at hfind
        exact hfind.symm
      have hrest : updateClient rest cid f = rest :=
        updateClient_id_of_not_mem rest cid f (h ▸ hnd.1)
      simp [updateClient, h, hrest, hwc ▸ hfix]
    · have hfind' : findClient rest cid = some ws := by
        simpa [findClient, h] using hfind
      simp [updateClient, h, ih hnd.2 hfind']

lemma count_updateClient_le (clients : List Client) (cid : Nat)
    (f : Client → Client) (rid : String)
    (hnd : (clients.map Client.cid).Nodup) :
    getRoomParticipantCount (updateClient clients cid f) rid ≤
      getRoomParticipantCount clients rid + 1 := by
  induction clients with
  | nil => simp [updateClient, getRoomParticipantCount]
  | cons c rest ih =>
    simp only [List.map_cons, List.nodup_cons] at hnd
    by_cases h : c.cid = cid
    · have hrest : updateClient rest cid f = rest :=
        updateClient_id_of_not_mem rest cid f (h ▸ hnd.1)
      simp only [updateClient, h, beq_self_eq_true, if_true, hrest,
        count_cons]
      have h1 : (if (f c).readyState == 1 && (f c).roomId == some rid
          then 1 else 0) ≤ 1 := by split <;> simp
      omega
    · have hne : (c.cid == cid) = false := by simp [h]
      simp only [updateClient, hne, Bool.false_eq_true, if_false, count_cons]
      have := ih hnd.2
      omega

lemma count_joinUpdate (clients : List Client) (cid : Nat) (p : Payload)
    (rid : String) (ws : Client)
    (hnd : (clients.map Client.cid).Nodup)
    (hfind : findClient clients cid = some ws)
    (hopen : ws.readyState = 1) (hnotin : ws.roomId ≠ some rid) :
    getRoomParticipantCount (updateClient clients cid (joinUpdate p rid)) rid =
      getRoomParticipantCount clients rid + 1 := by
  induction clients with
  | nil => simp [findClient] at hfind
  | cons c rest ih =>
    simp only [List.map_cons, List.nodup_cons] at hnd
    by_cases h : c.cid = cid
    · have hwc : ws = c := by
        simp only [findClient, h, beq_self_eq_true, if_true,
          Option.some_inj] at hfind
        exact hfind.symm
      subst hwc
      have hrest : updateClient rest cid (joinUpdate p rid) = rest :=
        updateClient_id_of_not_mem rest cid _ (h ▸ hnd.1)
      have hpredOld : (ws.readyState == 1 && ws.roomId == some rid) = false := by
        simp [hnotin]
      have hpredNew : ((joinUpdate p rid ws).readyState == 1 &&
          (joinUpdate p rid ws).roomId == some rid) = true := by
        simp [joinUpdate, hopen]
      simp only [updateClient, h, beq_self_eq_true, if_true, hrest,
        count_cons, hpredOld, hpredNew, if_true, Bool.false_eq_true, if_false]
      omega
    · have hne : (c.cid == cid) = false := by simp [h]
      have hfind' : findClient rest cid = some ws := by
        simpa [findClient, h] using hfind
      simp only [updateClient, hne, Bool.false_eq_true, if_false, count_cons,
        ih hnd.2 hfind']
      omega

lemma roomRecipients_updateClient (clients : List Client) (cid : Nat)
    (f : Client → Client) (rid : String) (hf : ∀ c, (f c).cid = c.cid) :
    roomRecipients (updateClient clients cid f) rid (some cid) =
      roomRecipients clients rid (some cid) := by
  induction clients with
  | nil => rfl
  | cons c rest ih =>
    by_cases h : c.cid = cid
    · subst h
      have hx : (some (f c).cid != some c.cid) = false := by simp [hf]
      simp only [updateClient, roomRecipients, List.filter_cons,
        beq_self_eq_true, if_true, hx, bne_self_eq_false, Bool.and_false,
        Bool.false_eq_true, if_false] at ih ⊢
      exact ih
    · have hne : (c.cid == cid) = false := by simp [h]
      simp only [updateClient, roomRecipients, List.filter_cons, hne,
        Bool.false_eq_true, if_false] at ih ⊢
      rw [ih]

lemma persistMessage_mk (store : List Message) (ws : Client) (p : Payload)
    (rid freshId : String) (now : Nat) :
    persistMessage store (mkChatMessage ws p rid freshId now) now =
      store ++ [mkChatMessage ws p rid freshId now] := by
  unfold persistMessage mkChatMessage
  split <;> rfl

/-! ### Branch lemmas for the join handler -/

lemma handleJoin_null_resp (clients : List Client) (store : List Message)
    (cid : Nat) (ws : Client) (p : Payload) (rid : String)
    (hfind : findClient clients cid = some ws)
    (hrid : p.roomId = some rid) (hne : rid ≠ "") :
    handleJoin clients store cid p none =
      ⟨clients, store,
        [(cid, Frame.joinError "Reunión no encontrada" "MEETING_NOT_FOUND")],
        []⟩ := by
  have hst : strTruthy (some rid) = true := by simp [strTruthy, hne]
  unfold handleJoin
  rw [hfind]
  simp [hrid, hst]

lemma handleJoin_full (clients : List Client) (store : List Message)
    (cid : Nat) (ws : Client) (p : Payload) (rid : String) (m : Meeting)
    (hfind : findClient clients cid = some ws)
    (hrid : p.roomId = some rid) (hne : rid ≠ "")
    (hact : m.isActive = true)
    (hge : m.maxParticipants ≤ getRoomParticipantCount clients rid) :
    handleJoin clients store cid p (some ⟨true, some m⟩) =
      ⟨clients, store,
        [(cid, Frame.joinErrorFull
            ("Reunión llena (" ++ toString m.maxParticipants ++ "/"
              ++ toString m.maxParticipants ++ " participantes)")
            "MEETING_FULL" (getRoomParticipantCount clients rid)
            m.maxParticipants)],
        []⟩ := by
  have hst : strTruthy (some rid) = true := by simp [strTruthy, hne]
  unfold handleJoin
  rw [hfind]
  simp [hrid, hst, hact, hge]

lemma handleJoin_success (clients : List Client) (store : List Message)
    (cid : Nat) (ws : Client) (p : Payload) (rid : String) (m : Meeting)
    (hfind : findClient clients cid = some ws)
    (hrid : p.roomId = some rid) (hne : rid ≠ "")
    (hact : m.isActive = true)
    (hlt : getRoomParticipantCount clients rid < m.maxParticipants) :
    handleJoin clients store cid p (some ⟨true, some m⟩) =
      ⟨updateClient clients cid (joinUpdate p rid), store,
        broadcastToRoom (updateClient clients cid (joinUpdate p rid)) rid
          (Frame.userJoined (strOrAnonymous (joinUpdate p rid ws).userId)
            (joinUpdate p rid ws).userId
            (getRoomParticipantCount clients rid + 1))
          (some cid)
        ++ [(cid, Frame.joined rid (getRoomParticipantCount clients rid + 1)
              m.maxParticipants),
            (cid, Frame.recentMessages (getLast store rid 50))],
        [(rid, (getRoomParticipantCount
            (updateClient clients cid (joinUpdate p rid)) rid : Int))]⟩ := by
  have hst : strTruthy (some rid) = true := by simp [strTruthy, hne]
  have hnlt : ¬ getRoomParticipantCount clients rid ≥ m.maxParticipants := by
    omega
  unfold handleJoin
  rw [hfind]
  simp [hrid, hst, hact, hnlt]

lemma handleJoin_clients_shape (clients : List Client) (store : List Message)
    (cid : Nat) (p : Payload) (resp : Option MeetingResp) :
    (handleJoin clients store cid p resp).clients = clients ∨
    (handleJoin clients store cid p resp).clients =
      updateClient clients cid (joinUpdate p (p.roomId.getD "")) := by
  unfold handleJoin
  repeat' split
  all_goals try simp
  split
  · simp
  · simp

lemma handleJoin_cid_map (clients : List Client) (store : List Message)
    (cid : Nat) (p : Payload) (resp : Option MeetingResp) :
    (handleJoin clients store cid p resp).clients.map Client.cid =
      clients.map Client.cid := by
  rcases handleJoin_clients_shape clients store cid p resp with h | h <;> rw [h]
  exact updateClient_cid_map clients cid _ (fun c => rfl)

lemma handleJoin_joined_lt (clients : List Client) (store : List Message)
    (cid : Nat) (p : Payload) (m : Meeting) (rid : String)
    (hrid : p.roomId = some rid)
    (hjoined : joinedFrameTo
      (handleJoin clients store cid p (some ⟨true, some m⟩)) cid = true) :
    getRoomParticipantCount clients rid < m.maxParticipants := by
  unfold handleJoin at hjoined
  rw [hrid] at hjoined
  cases hf : findClient clients cid with
  | none =>
    rw [hf] at hjoined
    simp [joinedFrameTo] at hjoined
  | some ws =>
    rw [hf] at hjoined
    simp only [Option.getD_some] at hjoined
    by_cases hst : strTruthy (some rid) = true
    · rw [if_pos hst] at hjoined
      by_cases hact : m.isActive = true
      · rw [if_pos hact] at hjoined
        by_cases hge : getRoomParticipantCount clients rid ≥ m.maxParticipants
        · rw [if_pos hge] at hjoined
          simp [joinedFrameTo] at hjoined
        · omega
      · rw [if_neg hact] at hjoined
        simp [joinedFrameTo] at hjoined
    · rw [if_neg hst] at hjoined
      simp [joinedFrameTo] at hjoined

/-! ### Claims -/

/-- C1, counterexample: a join request whose Meeting Authority lookup fails
entirely (`getMeeting` caught the error and returned `null`, modeled as
`resp = none`) is answered with `MEETING_NOT_FOUND`, not with a join-error
carrying code `SERVER_ERROR` as the claim states. -/
theorem join_lookup_null_not_server_error_cex :
    (handleJoin [⟨0, some "u", none, 1⟩] [] 0 { roomId := some "r1" }
        none).sends =
      [(0, Frame.joinError "Reunión no encontrada" "MEETING_NOT_FOUND")] ∧
    ∀ q ∈ (handleJoin [⟨0, some "u", none, 1⟩] [] 0 { roomId := some "r1" }
        none).sends,
      frameCode q.2 ≠ some "SERVER_ERROR" := by decide

/-- C1, amended: for every join request whose Meeting Authority lookup fails
entirely (the remote call throws, so `getMeeting` returns `null`), the
handler replies with a join-error carrying code `MEETING_NOT_FOUND` — the
same code as when the authority reports the room as not found — leaving all
connection state unchanged, and no reply carrying `SERVER_ERROR` is sent
(that code is produced only when the join handler's own `try` block
throws). -/
theorem join_lookup_null_replies_not_found
    (clients : List Client) (store : List Message) (cid : Nat) (ws : Client)
    (p : Payload) (rid : String)
    (hfind : findClient clients cid = some ws)
    (hrid : p.roomId = some rid) (hne : rid ≠ "") :
    handleJoin clients store cid p none =
      ⟨clients, store,
        [(cid, Frame.joinError "Reunión no encontrada" "MEETING_NOT_FOUND")],
        []⟩ ∧
    ∀ q ∈ (handleJoin clients store cid p none).sends,
      frameCode q.2 ≠ some "SERVER_ERROR" := by
  have h := handleJoin_null_resp clients store cid ws p rid hfind hrid hne
  refine ⟨h, ?_⟩
  rw [h]
  intro q hq
  rw [List.mem_singleton] at hq
  subst hq
  simp [frameCode]

/-- C1 witness: instantiation of `join_lookup_null_replies_not_found` at a
single open connection joining room `"r1"` while the authority lookup
throws. -/
theorem join_lookup_null_replies_not_found_witness :
    handleJoin [⟨0, some "u", none, 1⟩] [] 0 { roomId := some "r1" } none =
      ⟨[⟨0, some "u", none, 1⟩], [],
        [(0, Frame.joinError "Reunión no encontrada" "MEETING_NOT_FOUND")],
        []⟩ :=
  (join_lookup_null_replies_not_found [⟨0, some "u", none, 1⟩] [] 0
    ⟨0, some "u", none, 1⟩ { roomId := some "r1" } "r1" (by decide) rfl
    (by decide)).1

/-- C2: on transport-level disconnection the server's `close` listener only
logs — it never calls `handleDisconnect` — so for a connection registered in
room `"r1"` with one other member, no `user-left` notice is sent and no
count is reported; the unwired `ChatController.handleDisconnect` routine
would have produced exactly the notice (with the decremented count 1) and
the report the claim describes. -/
theorem disconnect_close_only_logs :
    (onClose [⟨0, some "u0", some "r1", 3⟩, ⟨1, some "u1", some "r1", 1⟩]
        []).sends = [] ∧
    (onClose [⟨0, some "u0", some "r1", 3⟩, ⟨1, some "u1", some "r1", 1⟩]
        []).reports = [] ∧
    (handleDisconnect [⟨0, some "u0", some "r1", 3⟩,
        ⟨1, some "u1", some "r1", 1⟩] [] 0).sends =
      [(1, Frame.userLeft "u0" (some "u0") 1)] ∧
    (handleDisconnect [⟨0, some "u0", some "r1", 3⟩,
        ⟨1, some "u1", some "r1", 1⟩] [] 0).reports = [("r1", 1)] := by
  decide

/-- C3: a join request to a room whose live connection count is at least the
authority-reported `maxParticipants` is rejected with a `MEETING_FULL`
join-error carrying the observed current and max values; the client list is
unchanged (so the connection's `roomId` stays as it was and the room's live
count is unchanged by the attempt). -/
theorem join_full_rejected
    (clients : List Client) (store : List Message) (cid : Nat) (ws : Client)
    (p : Payload) (rid : String) (m : Meeting)
    (hfind : findClient clients cid = some ws)
    (hrid : p.roomId = some rid) (hne : rid ≠ "")
    (hact : m.isActive = true)
    (hge : m.maxParticipants ≤ getRoomParticipantCount clients rid) :
    handleJoin clients store cid p (some ⟨true, some m⟩) =
      ⟨clients, store,
        [(cid, Frame.joinErrorFull
            ("Reunión llena (" ++ toString m.maxParticipants ++ "/"
              ++ toString m.maxParticipants ++ " participantes)")
            "MEETING_FULL" (getRoomParticipantCount clients rid)
            m.maxParticipants)],
        []⟩ ∧
    (handleJoin clients store cid p (some ⟨true, some m⟩)).clients = clients ∧
    findClient (handleJoin clients store cid p
      (some ⟨true, some m⟩)).clients cid = some ws ∧
    getRoomParticipantCount (handleJoin clients store cid p
      (some ⟨true, some m⟩)).clients rid =
      getRoomParticipantCount clients rid := by
  have h := handleJoin_full clients store cid ws p rid m hfind hrid hne hact hge
  exact ⟨h, by rw [h], by rw [h]; exact hfind, by rw [h]⟩

/-- C3 witness: instantiation of `join_full_rejected` at the spec's own
example — a room with `maxParticipants = 2`, two registered open
connections, and a third join attempt, rejected with current = max = 2. -/
theorem join_full_rejected_witness :
    handleJoin
      [⟨1, some "a", some "r1", 1⟩, ⟨2, some "b", some "r1", 1⟩,
       ⟨3, some "c", none, 1⟩] [] 3 { roomId := some "r1" }
      (some ⟨true, some { maxParticipants := 2, isActive := true }⟩) =
      ⟨[⟨1, some "a", some "r1", 1⟩, ⟨2, some "b", some "r1", 1⟩,
        ⟨3, some "c", none, 1⟩], [],
        [(3, Frame.joinErrorFull
            ("Reunión llena (" ++ toString 2 ++ "/" ++ toString 2
              ++ " participantes)") "MEETING_FULL" 2 2)],
        []⟩ := by
  have h := (join_full_rejected
    [⟨1, some "a", some "r1", 1⟩, ⟨2, some "b", some "r1", 1⟩,
     ⟨3, some "c", none, 1⟩] [] 3 ⟨3, some "c", none, 1⟩
    { roomId := some "r1" } "r1" { maxParticipants := 2, isActive := true }
    (by decide) rfl (by decide) rfl (by decide)).1
  simpa using h

/-- C4: race closure for concurrent joins.  The Node.js event loop runs each
handler continuation to completion: `handleJoin` suspends only at `await`
points, and there is no `await` between the live-count read
(chatController.ts line 142) and the registration (line 168), so that
section is atomic per handler.  Two join requests for the same room that
arrive before either authority check completes therefore execute their
check+register sections in one of the two sequential orders, modeled here
by composing `handleJoin` (whose only state mutation is that section).  If
both receive the `joined` confirmation, the room's resulting live count
still does not exceed the authority-reported `maxParticipants`. -/
theorem join_race_closure
    (clients : List Client) (store : List Message) (cid1 cid2 : Nat)
    (rid : String) (p1 p2 : Payload) (m1 m2 : Meeting)
    (hnd : (clients.map Client.cid).Nodup)
    (hr1 : p1.roomId = some rid) (hr2 : p2.roomId = some rid)
    (hmax : m1.maxParticipants = m2.maxParticipants)
    (h1 : joinedFrameTo
      (handleJoin clients store cid1 p1 (some ⟨true, some m1⟩)) cid1 = true)
    (h2 : joinedFrameTo
      (handleJoin (handleJoin clients store cid1 p1
          (some ⟨true, some m1⟩)).clients
        (handleJoin clients store cid1 p1 (some ⟨true, some m1⟩)).store
        cid2 p2 (some ⟨true, some m2⟩)) cid2 = true) :
    getRoomParticipantCount
      (handleJoin (handleJoin clients store cid1 p1
          (some ⟨true, some m1⟩)).clients
        (handleJoin clients store cid1 p1 (some ⟨true, some m1⟩)).store
        cid2 p2 (some ⟨true, some m2⟩)).clients rid ≤ m1.maxParticipants := by
  have hlt := handleJoin_joined_lt
    (handleJoin clients store cid1 p1 (some ⟨true, some m1⟩)).clients
    (handleJoin clients store cid1 p1 (some ⟨true, some m1⟩)).store
    cid2 p2 m2 rid hr2 h2
  have hnd1 : ((handleJoin clients store cid1 p1
      (some ⟨true, some m1⟩)).clients.map Client.cid).Nodup := by
    rw [handleJoin_cid_map]
    exact hnd
  have hbound : getRoomParticipantCount
      (handleJoin (handleJoin clients store cid1 p1
          (some ⟨true, some m1⟩)).clients
        (handleJoin clients store cid1 p1 (some ⟨true, some m1⟩)).store
        cid2 p2 (some ⟨true, some m2⟩)).clients rid ≤
      getRoomParticipantCount (handleJoin clients store cid1 p1
        (some ⟨true, some m1⟩)).clients rid + 1 := by
    rcases handleJoin_clients_shape
        (handleJoin clients store cid1 p1 (some ⟨true, some m1⟩)).clients
        (handleJoin clients store cid1 p1 (some ⟨true, some m1⟩)).store
        cid2 p2 (some ⟨true, some m2⟩) with h | h
    · rw [h]; omega
    · rw [h]
      exact count_updateClient_le _ cid2 _ rid hnd1
  omega

/-- C4 witness: two fresh open connections, ids 0 and 1, both joining room
`"r1"` with `maxParticipants = 2`: both succeed and the final live count is
2, within the declared capacity. -/
theorem join_race_closure_witness :
    joinedFrameTo
      (handleJoin [⟨0, some "a", none, 1⟩, ⟨1, some "b", none, 1⟩] [] 0
        { roomId := some "r1" }
        (some ⟨true, some { maxParticipants := 2, isActive := true }⟩)) 0 =
      true ∧
    joinedFrameTo
      (handleJoin
        (handleJoin [⟨0, some "a", none, 1⟩, ⟨1, some "b", none, 1⟩] [] 0
          { roomId := some "r1" }
          (some ⟨true, some { maxParticipants := 2, isActive := true }⟩)).clients
        (handleJoin [⟨0, some "a", none, 1⟩, ⟨1, some "b", none, 1⟩] [] 0
          { roomId := some "r1" }
          (some ⟨true, some { maxParticipants := 2, isActive := true }⟩)).store
        1 { roomId := some "r1" }
        (some ⟨true, some { maxParticipants := 2, isActive := true }⟩)) 1 =
      true ∧
    getRoomParticipantCount
      (handleJoin
        (handleJoin [⟨0, some "a", none, 1⟩, ⟨1, some "b", none, 1⟩] [] 0
          { roomId := some "r1" }
          (some ⟨true, some { maxParticipants := 2, isActive := true }⟩)).clients
        (handleJoin [⟨0, some "a", none, 1⟩, ⟨1, some "b", none, 1⟩] [] 0
          { roomId := some "r1" }
          (some ⟨true, some { maxParticipants := 2, isActive := true }⟩)).store
        1 { roomId := some "r1" }
        (some ⟨true, some { maxParticipants := 2, isActive := true }⟩)).clients
      "r1" ≤ 2 :=
  ⟨by decide, by decide,
    join_race_closure [⟨0, some "a", none, 1⟩, ⟨1, some "b", none, 1⟩] [] 0 1
      "r1" { roomId := some "r1" } { roomId := some "r1" }
      { maxParticipants := 2, isActive := true }
      { maxParticipants := 2, isActive := true }
      (by decide) rfl rfl rfl (by decide) (by decide)⟩

lemma handleChatMessage_no_room (clients : List Client) (store : List Message)
    (cid : Nat) (ws : Client) (p : Payload) (freshId : String) (now : Nat)
    (hfind : findClient clients cid = some ws)
    (hro : strTruthy (p.roomId <|> ws.roomId) = false) :
    handleChatMessage clients store cid p freshId now =
      ⟨clients, store, [(cid, Frame.errorStr "no-room")], []⟩ := by
  unfold handleChatMessage
  rw [hfind]
  simp [hro]

lemma handleSignaling_no_room (clients : List Client) (store : List Message)
    (cid : Nat) (ws : Client) (act : String) (p : Payload)
    (hfind : findClient clients cid = some ws)
    (hro : strTruthy (p.roomId <|> ws.roomId) = false) :
    handleSignaling clients store cid act p =
      ⟨clients, store, [(cid, Frame.errorStr "no-room")], []⟩ := by
  unfold handleSignaling
  rw [hfind]
  simp [hro]

/-- C8: protocol errors are answered with an error frame and leave all
connection state (the whole client list, hence every `roomId`, `userId`
and `readyState`) and the store unchanged: an unparsable frame gets
`invalid-json`, a recognized-shape envelope with an unknown action tag gets
`unknown-action`, and a chat or signaling envelope with no resolvable room
gets `no-room`.  No handler ever closes a connection. -/
theorem protocol_errors_state_unchanged
    (clients : List Client) (store : List Message) (cid : Nat)
    (resp : Option MeetingResp) (freshId : String) (now : Nat) :
    (handleMessage clients store cid none resp freshId now =
      ⟨clients, store, [(cid, Frame.errorStr "invalid-json")], []⟩) ∧
    (∀ env : Envelope,
      env.action ∉ (["join", "leave", "chat-message", "signal-offer",
        "signal-answer", "signal-candidate"] : List String) →
      handleMessage clients store cid (some env) resp freshId now =
        ⟨clients, store, [(cid, Frame.errorStr "unknown-action")], []⟩) ∧
    (∀ env : Envelope, ∀ ws : Client,
      findClient clients cid = some ws →
      env.action ∈ (["chat-message", "signal-offer", "signal-answer",
        "signal-candidate"] : List String) →
      strTruthy (env.payload.roomId <|> ws.roomId) = false →
      handleMessage clients store cid (some env) resp freshId now =
        ⟨clients, store, [(cid, Frame.errorStr "no-room")], []⟩) := by
  refine ⟨rfl, ?_, ?_⟩
  · intro env hnotin
    simp only [List.mem_cons, List.not_mem_nil, or_false, not_or] at hnotin
    obtain ⟨n1, n2, n3, n4, n5, n6⟩ := hnotin
    simp [handleMessage, n1, n2, n3, n4, n5, n6]
  · intro env ws hfind hmem hro
    obtain ⟨act, p⟩ := env
    simp only [List.mem_cons, List.not_mem_nil, or_false] at hmem
    rcases hmem with h | h | h | h <;> subst h
    · simpa [handleMessage] using
        handleChatMessage_no_room clients store cid ws p freshId now hfind hro
    · simpa [handleMessage] using
        handleSignaling_no_room clients store cid ws "signal-offer" p hfind hro
    · simpa [handleMessage] using
        handleSignaling_no_room clients store cid ws "signal-answer" p hfind hro
    · simpa [handleMessage] using
        handleSignaling_no_room clients store cid ws "signal-candidate" p hfind hro

/-- C8 witness: instantiation of `protocol_errors_state_unchanged` at a
one-connection state: an unparsable frame, an envelope with action
`"bogus"`, and a chat envelope with no resolvable room. -/
theorem protocol_errors_state_unchanged_witness :
    (handleMessage [⟨0, some "u", none, 1⟩] [] 0 none none "id" 5 =
      ⟨[⟨0, some "u", none, 1⟩], [],
        [(0, Frame.errorStr "invalid-json")], []⟩) ∧
    (handleMessage [⟨0, some "u", none, 1⟩] [] 0
        (some ⟨"bogus", {}⟩) none "id" 5 =
      ⟨[⟨0, some "u", none, 1⟩], [],
        [(0, Frame.errorStr "unknown-action")], []⟩) ∧
    (handleMessage [⟨0, some "u", none, 1⟩] [] 0
        (some ⟨"chat-message", { text := some "hi" }⟩) none "id" 5 =
      ⟨[⟨0, some "u", none, 1⟩], [],
        [(0, Frame.errorStr "no-room")], []⟩) :=
  ⟨(protocol_errors_state_unchanged [⟨0, some "u", none, 1⟩] [] 0 none
      "id" 5).1,
   (protocol_errors_state_unchanged [⟨0, some "u", none, 1⟩] [] 0 none
      "id" 5).2.1 ⟨"bogus", {}⟩ (by decide),
   (protocol_errors_state_unchanged [⟨0, some "u", none, 1⟩] [] 0 none
      "id" 5).2.2 ⟨"chat-message", { text := some "hi" }⟩
      ⟨0, some "u", none, 1⟩ (by decide) (by decide) (by decide)⟩

lemma roomRecipients_none (clients : List Client) (rid : String) :
    roomRecipients clients rid none =
      clients.filter (fun c => c.readyState == 1 && c.roomId == some rid) := by
  unfold roomRecipients
  apply List.filter_congr
  intro c _
  simp

lemma handleChatMessage_resolved (clients : List Client)
    (store : List Message) (cid : Nat) (ws : Client) (p : Payload)
    (freshId : String) (now : Nat) (rid : String)
    (hfind : findClient clients cid = some ws)
    (hres : (p.roomId <|> ws.roomId) = some rid) (hne : rid ≠ "") :
    handleChatMessage clients store cid p freshId now =
      ⟨clients, store ++ [mkChatMessage ws p rid freshId now],
        broadcastToRoom clients rid
          (Frame.chatMessage (mkChatMessage ws p rid freshId now)) none,
        []⟩ := by
  have hst : strTruthy (some rid) = true := by simp [strTruthy, hne]
  unfold handleChatMessage
  rw [hfind]
  simp [hres, hst, persistMessage_mk]

/-- C5: a chat-message envelope whose room resolves to `rid` (from the
payload or the connection's current room) persists exactly one `Message`,
whose `content` is the payload text and whose `roomId` is `rid`; the
`chat-message` broadcast carrying that `Message` goes to exactly the open
members of `rid` — the sender is not excluded, so a sender registered in
the room receives its own message — and no member of any other room
receives anything. -/
theorem chat_message_persist_broadcast
    (clients : List Client) (store : List Message) (cid : Nat) (ws : Client)
    (p : Payload) (freshId : String) (now : Nat) (rid t : String)
    (hnd : (clients.map Client.cid).Nodup)
    (hfind : findClient clients cid = some ws)
    (hres : (p.roomId <|> ws.roomId) = some rid) (hne : rid ≠ "")
    (htext : p.text = some t) :
    ((handleChatMessage clients store cid p freshId now).store =
      store ++ [mkChatMessage ws p rid freshId now]) ∧
    (mkChatMessage ws p rid freshId now).content = t ∧
    (mkChatMessage ws p rid freshId now).roomId = rid ∧
    ((handleChatMessage clients store cid p freshId now).sends =
      (clients.filter (fun c => c.readyState == 1 && c.roomId == some rid)).map
        (fun c => (c.cid,
          Frame.chatMessage (mkChatMessage ws p rid freshId now)))) ∧
    (∀ c ∈ clients, c.readyState = 1 → c.roomId = some rid →
      (c.cid, Frame.chatMessage (mkChatMessage ws p rid freshId now)) ∈
        (handleChatMessage clients store cid p freshId now).sends) ∧
    (∀ c ∈ clients, ∀ rid2, c.roomId = some rid2 → rid2 ≠ rid →
      ∀ q ∈ (handleChatMessage clients store cid p freshId now).sends,
        q.1 ≠ c.cid) := by
  have h := handleChatMessage_resolved clients store cid ws p freshId now rid
    hfind hres hne
  have hsends : (handleChatMessage clients store cid p freshId now).sends =
      (clients.filter
        (fun c => c.readyState == 1 && c.roomId == some rid)).map
        (fun c => (c.cid,
          Frame.chatMessage (mkChatMessage ws p rid freshId now))) := by
    rw [h]
    show broadcastToRoom clients rid _ none = _
    rw [broadcastToRoom, roomRecipients_none]
  refine ⟨by rw [h], by simp [mkChatMessage, htext], rfl, hsends, ?_, ?_⟩
  · intro c hc h1 h2
    rw [hsends]
    exact List.mem_map_of_mem _
      (List.mem_filter.mpr ⟨hc, by simp [h1, h2]⟩)
  · intro c hc rid2 hc2 hne2 q hq hq1
    rw [hsends] at hq
    obtain ⟨c', hc', hq'⟩ := List.mem_map.mp hq
    subst hq'
    have hcid : c'.cid = c.cid := hq1
    have := List.mem_filter.mp hc'
    have hcc : c' = c :=
      List.inj_on_of_nodup_map hnd this.1 hc hcid
    rw [hcc] at this
    have : c.roomId = some rid := by
      have h2 := this.2
      simp only [Bool.and_eq_true, beq_iff_eq] at h2
      exact h2.2
    rw [hc2] at this
    exact hne2 (by injection this)

/-- C5 witness: instantiation of `chat_message_persist_broadcast` with a
sender and one other member in room `"r1"` and a bystander in `"r2"`:
text `"hi"` is persisted once for `"r1"` and broadcast to both members of
`"r1"` (sender included) and not to the bystander. -/
theorem chat_message_persist_broadcast_witness :
    ((handleChatMessage
      [⟨0, some "u0", some "r1", 1⟩, ⟨1, some "u1", some "r1", 1⟩,
       ⟨2, some "u2", some "r2", 1⟩] [] 0 { text := some "hi" } "id1"
      77).store =
      [] ++ [mkChatMessage ⟨0, some "u0", some "r1", 1⟩ { text := some "hi" }
        "r1" "id1" 77]) ∧
    (∀ c ∈ ([⟨0, some "u0", some "r1", 1⟩, ⟨1, some "u1", some "r1", 1⟩,
        ⟨2, some "u2", some "r2", 1⟩] : List Client), c.readyState = 1 →
      c.roomId = some "r1" →
      (c.cid, Frame.chatMessage (mkChatMessage ⟨0, some "u0", some "r1", 1⟩
        { text := some "hi" } "r1" "id1" 77)) ∈
        (handleChatMessage
          [⟨0, some "u0", some "r1", 1⟩, ⟨1, some "u1", some "r1", 1⟩,
           ⟨2, some "u2", some "r2", 1⟩] [] 0 { text := some "hi" } "id1"
          77).sends) ∧
    (∀ c ∈ ([⟨0, some "u0", some "r1", 1⟩, ⟨1, some "u1", some "r1", 1⟩,
        ⟨2, some "u2", some "r2", 1⟩] : List Client), ∀ rid2, c.roomId = some rid2 →
      rid2 ≠ "r1" →
      ∀ q ∈ (handleChatMessage
          [⟨0, some "u0", some "r1", 1⟩, ⟨1, some "u1", some "r1", 1⟩,
           ⟨2, some "u2", some "r2", 1⟩] [] 0 { text := some "hi" } "id1"
          77).sends, q.1 ≠ c.cid) := by
  have h := chat_message_persist_broadcast
    [⟨0, some "u0", some "r1", 1⟩, ⟨1, some "u1", some "r1", 1⟩,
     ⟨2, some "u2", some "r2", 1⟩] [] 0 ⟨0, some "u0", some "r1", 1⟩
    { text := some "hi" } "id1" 77 "r1" "hi" (by decide) (by decide) rfl
    (by decide) rfl
  exact ⟨h.1, h.2.2.2.2.1, h.2.2.2.2.2⟩

/-- C10: in the persisted chat `Message`, the connection-level identity
takes precedence: when the connection has a `userId` (even the empty
string, since the source uses nullish coalescing), `senderId` equals it
and the payload's `senderId` is ignored; the payload's `senderId` is used
only when the connection has none, and `"anonymous"` only when both are
absent. -/
theorem chat_sender_identity_precedence
    (clients : List Client) (store : List Message) (cid : Nat) (ws : Client)
    (p : Payload) (freshId : String) (now : Nat) (rid : String)
    (hfind : findClient clients cid = some ws)
    (hres : (p.roomId <|> ws.roomId) = some rid) (hne : rid ≠ "") :
    ((handleChatMessage clients store cid p freshId now).store =
      store ++ [mkChatMessage ws p rid freshId now]) ∧
    (∀ u, ws.userId = some u →
      (mkChatMessage ws p rid freshId now).senderId = u) ∧
    (ws.userId = none → ∀ s, p.senderId = some s →
      (mkChatMessage ws p rid freshId now).senderId = s) ∧
    (ws.userId = none → p.senderId = none →
      (mkChatMessage ws p rid freshId now).senderId = "anonymous") := by
  refine ⟨by rw [handleChatMessage_resolved clients store cid ws p freshId
      now rid hfind hres hne], ?_, ?_, ?_⟩
  · intro u hu; simp [mkChatMessage, hu]
  · intro hu s hs; simp [mkChatMessage, hu, hs]
  · intro hu hs; simp [mkChatMessage, hu, hs]

/-- C10 witness: a connection with `userId = "conn"` sending a payload with
`senderId = "payload"`: the persisted `senderId` is `"conn"`. -/
theorem chat_sender_identity_precedence_witness :
    (handleChatMessage [⟨0, some "conn", some "r1", 1⟩] [] 0
        { senderId := some "payload", text := some "x" } "id2" 9).store =
      [] ++ [mkChatMessage ⟨0, some "conn", some "r1", 1⟩
        { senderId := some "payload", text := some "x" } "r1" "id2" 9] ∧
    (mkChatMessage ⟨0, some "conn", some "r1", 1⟩
        { senderId := some "payload", text := some "x" } "r1" "id2"
        9).senderId = "conn" := by
  have h := chat_sender_identity_precedence [⟨0, some "conn", some "r1", 1⟩]
    [] 0 ⟨0, some "conn", some "r1", 1⟩
    { senderId := some "payload", text := some "x" } "id2" 9 "r1"
    (by decide) rfl (by decide)
  exact ⟨h.1, h.2.1 "conn" rfl⟩

lemma handleSignaling_resolved (clients : List Client) (store : List Message)
    (cid : Nat) (ws : Client) (act : String) (p : Payload) (rid : String)
    (hfind : findClient clients cid = some ws)
    (hres : (p.roomId <|> ws.roomId) = some rid) (hne : rid ≠ "") :
    handleSignaling clients store cid act p =
      ⟨clients, store,
        broadcastToRoom clients rid (Frame.signal act p ws.userId) (some cid),
        []⟩ := by
  have hst : strTruthy (some rid) = true := by simp [strTruthy, hne]
  unfold handleSignaling
  rw [hfind]
  simp [hres, hst]

/-- C6: a signaling envelope (`signal-offer`, `signal-answer` or
`signal-candidate`) whose room resolves to `rid` is relayed with its payload
verbatim plus a `from` field equal to the sender's identity (`ws.userId`),
to exactly the other open members of that room — every open member of `rid`
other than the sender receives it, and no sent frame ever targets the
sender. -/
theorem signaling_relay
    (clients : List Client) (store : List Message) (cid : Nat) (ws : Client)
    (act : String) (p : Payload) (rid : String) (resp : Option MeetingResp)
    (freshId : String) (now : Nat)
    (hact : act ∈ (["signal-offer", "signal-answer", "signal-candidate"] :
      List String))
    (hfind : findClient clients cid = some ws)
    (hres : (p.roomId <|> ws.roomId) = some rid) (hne : rid ≠ "") :
    (handleMessage clients store cid (some ⟨act, p⟩) resp freshId now =
      ⟨clients, store,
        (roomRecipients clients rid (some cid)).map
          (fun c => (c.cid, Frame.signal act p ws.userId)), []⟩) ∧
    (∀ c ∈ clients, c.readyState = 1 → c.roomId = some rid → c.cid ≠ cid →
      (c.cid, Frame.signal act p ws.userId) ∈
        (handleMessage clients store cid (some ⟨act, p⟩) resp freshId
          now).sends) ∧
    (∀ q ∈ (handleMessage clients store cid (some ⟨act, p⟩) resp freshId
        now).sends, q.1 ≠ cid) := by
  have hdisp : handleMessage clients store cid (some ⟨act, p⟩) resp freshId
      now = handleSignaling clients store cid act p := by
    simp only [List.mem_cons, List.not_mem_nil, or_false] at hact
    rcases hact with h | h | h <;> subst h <;> rfl
  have h := handleSignaling_resolved clients store cid ws act p rid hfind
    hres hne
  have hsends : (handleMessage clients store cid (some ⟨act, p⟩) resp freshId
      now).sends = (roomRecipients clients rid (some cid)).map
        (fun c => (c.cid, Frame.signal act p ws.userId)) := by
    rw [hdisp, h]; rfl
  refine ⟨by rw [hdisp, h]; rfl, ?_, ?_⟩
  · intro c hc h1 h2 h3
    rw [hsends]
    refine List.mem_map_of_mem _ (List.mem_filter.mpr ⟨hc, ?_⟩)
    simp [h1, h2, h3]
  · intro q hq hq1
    rw [hsends] at hq
    obtain ⟨c', hc', hq'⟩ := List.mem_map.mp hq
    subst hq'
    have := (List.mem_filter.mp hc').2
    simp only [Bool.and_eq_true, bne_iff_ne, ne_eq, Option.some_inj] at this
    exact this.2 hq1

/-- C6 witness: instantiation of `signaling_relay` for a `signal-offer`
from connection 0 in room `"r1"` with one other member and a bystander in
`"r2"`: only connection 1 receives the relayed frame. -/
theorem signaling_relay_witness :
    (handleMessage
      [⟨0, some "u0", some "r1", 1⟩, ⟨1, some "u1", some "r1", 1⟩,
       ⟨2, some "u2", some "r2", 1⟩] [] 0
      (some ⟨"signal-offer", { extra := [("sdp", "v=0")] }⟩) none "id" 3 =
      ⟨[⟨0, some "u0", some "r1", 1⟩, ⟨1, some "u1", some "r1", 1⟩,
        ⟨2, some "u2", some "r2", 1⟩], [],
        (roomRecipients
          [⟨0, some "u0", some "r1", 1⟩, ⟨1, some "u1", some "r1", 1⟩,
           ⟨2, some "u2", some "r2", 1⟩] "r1" (some 0)).map
          (fun c => (c.cid, Frame.signal "signal-offer"
            { extra := [("sdp", "v=0")] } (some "u0"))), []⟩) ∧
    (∀ q ∈ (handleMessage
        [⟨0, some "u0", some "r1", 1⟩, ⟨1, some "u1", some "r1", 1⟩,
         ⟨2, some "u2", some "r2", 1⟩] [] 0
        (some ⟨"signal-offer", { extra := [("sdp", "v=0")] }⟩) none "id"
        3).sends, q.1 ≠ 0) := by
  have h := signaling_relay
    [⟨0, some "u0", some "r1", 1⟩, ⟨1, some "u1", some "r1", 1⟩,
     ⟨2, some "u2", some "r2", 1⟩] [] 0 ⟨0, some "u0", some "r1", 1⟩
    "signal-offer" { extra := [("sdp", "v=0")] } "r1" none "id" 3
    (by decide) (by decide) rfl (by decide)
  exact ⟨h.1, h.2.2⟩

lemma handleLeave_unregistered (clients : List Client)
    (store : List Message) (cid : Nat) (ws : Client)
    (hnd : (clients.map Client.cid).Nodup)
    (hfind : findClient clients cid = some ws) (hro : ws.roomId = none) :
    handleLeave clients store cid =
      ⟨clients, store, [(cid, Frame.leftAck)], []⟩ := by
  have hfix : (fun c => { c with roomId := none }) ws = ws := by
    cases ws
    simp_all
  have hupd := updateClient_eq_self clients cid
    (fun c => { c with roomId := none }) ws hnd hfind hfix
  unfold handleLeave
  rw [hfind]
  simp [hro, strTruthy, hupd]

lemma handleLeave_clients (clients : List Client) (store : List Message)
    (cid : Nat) (ws : Client) (hfind : findClient clients cid = some ws) :
    (handleLeave clients store cid).clients =
      updateClient clients cid (fun c => { c with roomId := none }) := by
  unfold handleLeave
  rw [hfind]

lemma handleLeave_unregistered_effects (clients : List Client)
    (store : List Message) (cid : Nat) (ws : Client)
    (hfind : findClient clients cid = some ws) (hro : ws.roomId = none) :
    (handleLeave clients store cid).sends = [(cid, Frame.leftAck)] ∧
    (handleLeave clients store cid).reports = [] := by
  unfold handleLeave
  rw [hfind]
  simp [hro, strTruthy]

/-- C9: leave is idempotent — a leave handled while the connection is not
registered in any room performs no broadcast and no count report and just
acknowledges with `left`; a second leave right after a first one likewise
reports nothing (one registration is never decremented twice); and every
count the leave path reports to the Meeting Authority Client is floored at
zero (`Math.max(0, count - 1)`). -/
theorem leave_idempotent_floored
    (clients : List Client) (store : List Message) (cid : Nat) (ws : Client)
    (hnd : (clients.map Client.cid).Nodup)
    (hfind : findClient clients cid = some ws) :
    (ws.roomId = none →
      handleLeave clients store cid =
        ⟨clients, store, [(cid, Frame.leftAck)], []⟩) ∧
    ((handleLeave (handleLeave clients store cid).clients
        (handleLeave clients store cid).store cid).sends =
      [(cid, Frame.leftAck)] ∧
     (handleLeave (handleLeave clients store cid).clients
        (handleLeave clients store cid).store cid).reports = []) ∧
    (∀ q ∈ (handleLeave clients store cid).reports, 0 ≤ q.2) := by
  refine ⟨fun hro => handleLeave_unregistered clients store cid ws hnd hfind
    hro, ?_, ?_⟩
  · have hforward : findClient (handleLeave clients store cid).clients cid =
        some { ws with roomId := none } := by
      rw [handleLeave_clients clients store cid ws hfind,
        findClient_updateClient clients cid
          (fun c => { c with roomId := none }) (fun c => rfl), hfind]
      rfl
    exact handleLeave_unregistered_effects _ _ cid { ws with roomId := none }
      hforward rfl
  · unfold handleLeave
    rw [hfind]
    by_cases hro : strTruthy ws.roomId = true
    · simp only [hro, if_true]
      intro q hq
      rw [List.mem_singleton] at hq
      subst hq
      exact le_max_left 0 _
    · simp [hro]

/-- C9 witness: instantiation of `leave_idempotent_floored` at a
two-connection state where connection 0 is not registered anywhere: its
leave only acknowledges, a repeated leave reports nothing, and all reported
counts are nonnegative. -/
theorem leave_idempotent_floored_witness :
    (handleLeave [⟨0, some "u", none, 1⟩, ⟨1, some "v", some "r1", 1⟩] [] 0 =
      ⟨[⟨0, some "u", none, 1⟩, ⟨1, some "v", some "r1", 1⟩], [],
        [(0, Frame.leftAck)], []⟩) ∧
    ((handleLeave
        (handleLeave [⟨0, some "u", none, 1⟩, ⟨1, some "v", some "r1", 1⟩]
          [] 0).clients
        (handleLeave [⟨0, some "u", none, 1⟩, ⟨1, some "v", some "r1", 1⟩]
          [] 0).store 0).sends = [(0, Frame.leftAck)] ∧
     (handleLeave
        (handleLeave [⟨0, some "u", none, 1⟩, ⟨1, some "v", some "r1", 1⟩]
          [] 0).clients
        (handleLeave [⟨0, some "u", none, 1⟩, ⟨1, some "v", some "r1", 1⟩]
          [] 0).store 0).reports = []) ∧
    (∀ q ∈ (handleLeave [⟨0, some "u", none, 1⟩,
        ⟨1, some "v", some "r1", 1⟩] [] 0).reports, 0 ≤ q.2) := by
  have h := leave_idempotent_floored
    [⟨0, some "u", none, 1⟩, ⟨1, some "v", some "r1", 1⟩] [] 0
    ⟨0, some "u", none, 1⟩ (by decide) (by decide)
  exact ⟨h.1 rfl, h.2.1, h.2.2⟩

/-- C7, counterexample: a connection already registered in room `"r1"`
sends a join for `"r1"` again; the join succeeds (a `joined` confirmation
is sent, claiming 2 participants) but the room's live count stays 1 — it
does not increase by exactly one. -/
theorem rejoin_count_unchanged_cex :
    joinedFrameTo (handleJoin [⟨0, some "a", some "r1", 1⟩] [] 0
      { roomId := some "r1" }
      (some ⟨true, some { maxParticipants := 2, isActive := true }⟩)) 0 =
      true ∧
    getRoomParticipantCount (handleJoin [⟨0, some "a", some "r1", 1⟩] [] 0
      { roomId := some "r1" }
      (some ⟨true, some { maxParticipants := 2, isActive := true }⟩)).clients
      "r1" = 1 ∧
    getRoomParticipantCount [⟨0, some "a", some "r1", 1⟩] "r1" = 1 := by
  decide

/-- C7, amended: after every successful join by an open connection that was
not already registered in the target room, the room's live count increases
by exactly one; exactly the pre-existing open members of the room (the
recipients excluding the joiner) receive a `user-joined` notice carrying
the updated count; the joiner receives a `joined` confirmation with the
room id, the updated count and `maxParticipants` (followed by the recent
history); and the updated count is reported to the Meeting Authority
Client. -/
theorem join_success_effects
    (clients : List Client) (store : List Message) (cid : Nat) (ws : Client)
    (p : Payload) (rid : String) (m : Meeting)
    (hnd : (clients.map Client.cid).Nodup)
    (hfind : findClient clients cid = some ws)
    (hopen : ws.readyState = 1) (hnotin : ws.roomId ≠ some rid)
    (hrid : p.roomId = some rid) (hne : rid ≠ "")
    (hact : m.isActive = true)
    (hlt : getRoomParticipantCount clients rid < m.maxParticipants) :
    (getRoomParticipantCount (handleJoin clients store cid p
        (some ⟨true, some m⟩)).clients rid =
      getRoomParticipantCount clients rid + 1) ∧
    ((handleJoin clients store cid p (some ⟨true, some m⟩)).sends =
      (roomRecipients clients rid (some cid)).map
        (fun c => (c.cid, Frame.userJoined
          (strOrAnonymous (joinUpdate p rid ws).userId)
          (joinUpdate p rid ws).userId
          (getRoomParticipantCount clients rid + 1)))
      ++ [(cid, Frame.joined rid (getRoomParticipantCount clients rid + 1)
            m.maxParticipants),
          (cid, Frame.recentMessages (getLast store rid 50))]) ∧
    ((handleJoin clients store cid p (some ⟨true, some m⟩)).reports =
      [(rid, ((getRoomParticipantCount clients rid + 1 : Nat) : Int))]) := by
  have h := handleJoin_success clients store cid ws p rid m hfind hrid hne
    hact hlt
  have hcount := count_joinUpdate clients cid p rid ws hnd hfind hopen hnotin
  refine ⟨?_, ?_, ?_⟩
  · rw [h]
    exact hcount
  · rw [h]
    dsimp only
    rw [broadcastToRoom,
      roomRecipients_updateClient clients cid (joinUpdate p rid) rid
        (fun c => rfl)]
  · rw [h]
    dsimp only
    rw [hcount]

/-- C7 witness: instantiation of `join_success_effects` — connection 0
(open, unregistered) joins room `"r1"` which already holds connection 1,
with `maxParticipants = 5`. -/
theorem join_success_effects_witness :
    (getRoomParticipantCount (handleJoin
        [⟨0, some "u0", none, 1⟩, ⟨1, some "u1", some "r1", 1⟩] [] 0
        { roomId := some "r1", userId := some "z" }
        (some ⟨true, some { maxParticipants := 5, isActive := true }⟩)).clients
      "r1" =
      getRoomParticipantCount
        [⟨0, some "u0", none, 1⟩, ⟨1, some "u1", some "r1", 1⟩] "r1" + 1) ∧
    ((handleJoin [⟨0, some "u0", none, 1⟩, ⟨1, some "u1", some "r1", 1⟩] [] 0
        { roomId := some "r1", userId := some "z" }
        (some ⟨true, some { maxParticipants := 5, isActive := true }⟩)).sends =
      (roomRecipients [⟨0, some "u0", none, 1⟩, ⟨1, some "u1", some "r1", 1⟩]
        "r1" (some 0)).map
        (fun c => (c.cid, Frame.userJoined
          (strOrAnonymous (joinUpdate { roomId := some "r1", userId := some "z" } "r1" ⟨0, some "u0", none, 1⟩).userId)
          (joinUpdate { roomId := some "r1", userId := some "z" } "r1" ⟨0, some "u0", none, 1⟩).userId
          (getRoomParticipantCount
            [⟨0, some "u0", none, 1⟩, ⟨1, some "u1", some "r1", 1⟩] "r1" + 1)))
      ++ [(0, Frame.joined "r1"
            (getRoomParticipantCount
              [⟨0, some "u0", none, 1⟩, ⟨1, some "u1", some "r1", 1⟩] "r1"
              + 1) 5),
          (0, Frame.recentMessages (getLast [] "r1" 50))]) ∧
    ((handleJoin [⟨0, some "u0", none, 1⟩, ⟨1, some "u1", some "r1", 1⟩] [] 0
        { roomId := some "r1", userId := some "z" }
        (some ⟨true, some { maxParticipants := 5, isActive := true }⟩)).reports =
      [("r1", ((getRoomParticipantCount
          [⟨0, some "u0", none, 1⟩, ⟨1, some "u1", some "r1", 1⟩] "r1"
          + 1 : Nat) : Int))]) :=
  join_success_effects
    [⟨0, some "u0", none, 1⟩, ⟨1, some "u1", some "r1", 1⟩] [] 0
    ⟨0, some "u0", none, 1⟩ { roomId := some "r1", userId := some "z" }
    "r1" { maxParticipants := 5, isActive := true }
    (by decide) (by decide) rfl (by decide) rfl (by decide) rfl (by decide)

end VCwebChat
